import Mathlib

/-!
Verification of the ktest request-dispatch and authorization-gate program
(src/main.rs) against its specification.

The embedding models the protected-route kontroller `PrivateKontroller`
and the route registration performed by `main`.  The kong framework
library (the types `Kong`, `Method`, `server::Response`, the constructors
of `ErrorResponse`, and the function `is_admin` from kong_kontrollers)
is an external collaborator whose source is not part of this repository,
so those pieces are modelled from the specification at their boundary,
as stated in the doc comment of each such definition.  The accounts
database is threaded explicitly as state, together with a counter of
identity-store queries, so that frame properties (the gate mutates
nothing, and an unauthenticated request never touches the store) are
expressible.
-/

namespace Ktest

/-- Modelled from the spec: the HTTP method component of a Route, from the
kong library (not in src).  Only Get and Post occur in this program. -/
inductive Method where
  | Get
  | Post
  | Put
  | Delete
deriving DecidableEq, Repr

/-- Modelled from the spec: the opaque session token ("kpassport")
established by a prior authentication step.  The spec's session-token
boundary states that a valid token resolves to exactly one identity, so
the model carries that identity's key (the account username). -/
structure Kpassport where
  username : String
deriving DecidableEq, Repr

/-- Modelled from the spec: the per-request context ("Kong") carrying an
optional SessionContext; its absence means "unauthenticated". -/
structure Kong where
  kpassport : Option Kpassport
deriving DecidableEq, Repr

/-- Modelled from the spec: a response with a status code and a
structured body, as produced by the kong server layer (not in src). -/
structure Response where
  status_code : Nat
  body : String
deriving DecidableEq, Repr

/-- Modelled from the spec: server::Response::json builds a successful
JSON response (200 by default) from a serialized JSON body. -/
def Response.json (body : String) : Response :=
  { status_code := 200, body := body }

/-- Modelled from the spec: with_status_code replaces the status code of
a response. -/
def Response.with_status_code (r : Response) (c : Nat) : Response :=
  { r with status_code := c }

namespace ErrorResponse

/-- Modelled from the spec: the Unauthorized ErrorResponse variant,
401-equivalent, fixed status code and message (kong library, not in src). -/
def unauthorized : Response :=
  { status_code := 401, body := "Unauthorized" }

/-- Modelled from the spec: the Internal ErrorResponse variant,
500-equivalent, fixed status code and message (kong library, not in src). -/
def internal : Response :=
  { status_code := 500, body := "Internal Server Error" }

/-- Modelled from the spec: the BadRequest ErrorResponse variant (domain
error), fixed status code and message (kong library, not in src). -/
def bad_request : Response :=
  { status_code := 400, body := "Bad Request" }

/-- Modelled from the spec: the NotFound ErrorResponse variant, returned
by the dispatcher on a route miss (kong library, not in src). -/
def not_found : Response :=
  { status_code := 404, body := "Not Found" }

end ErrorResponse

/-- Modelled from the spec: the accounts identity store, a persistent
table of account rows queried by identity for the administrator role
flag; `reachable` models the store-unreachable fault of the spec.  Each
entry pairs a username with its IdentityRecord role flag. -/
structure AccountsDB where
  reachable : Bool
  accounts : List (String × Bool)
deriving DecidableEq, Repr

/-- Association-list lookup of an account's administrator flag by
username (first match wins). -/
def lookupAccount : List (String × Bool) → String → Option Bool
  | [], _ => none
  | (n, f) :: rest, u => if n = u then some f else lookupAccount rest u

/-- Modelled from the spec: the resolution failures of the identity-store
boundary (store unreachable, identity not found). -/
inductive LookupError where
  | storeUnreachable
  | identityNotFound
deriving DecidableEq, Repr

/-- The identity store together with a counter of queries made against
it, used to express that the gate only ever reads the store. -/
structure StoreState where
  db : AccountsDB
  queries : Nat
deriving DecidableEq, Repr

/-- Modelled from the spec: is_admin (kong_kontrollers::login, not in
src) resolves a SessionContext against the identity store, returning the
role flag or an explicit resolution failure; the store is queried, never
mutated, so only the query counter of the state changes. -/
def is_admin (k : Kpassport) (s : StoreState) :
    Except LookupError Bool × StoreState :=
  let s' : StoreState := { s with queries := s.queries + 1 }
  if s.db.reachable then
    match lookupAccount s.db.accounts k.username with
    | some flag => (Except.ok flag, s')
    | none => (Except.error LookupError.identityNotFound, s')
  else
    (Except.error LookupError.storeUnreachable, s')

/-- The protected-route kontroller of src/main.rs: its endpoint address
and HTTP method.  Its shared accounts database is the StoreState threaded
through kontrol. -/
structure PrivateKontroller where
  address : String
  method : Method
deriving DecidableEq, Repr

/-- The serialized body of json!(\x7b "message": "Hello World" \x7d)
returned by the protected route on success. -/
def helloWorldBody : String :=
  "\x7b\"message\":\"Hello World\"\x7d"

/-- PrivateKontroller::kontrol from src/main.rs: if a kpassport is
present, resolve it with is_admin; Ok true serves the JSON payload with
status 200, Ok false returns ErrorResponse::unauthorized, Err returns
ErrorResponse::internal; with no kpassport, ErrorResponse::unauthorized. -/
def PrivateKontroller.kontrol (_self : PrivateKontroller) (kong : Kong)
    (s : StoreState) : Response × StoreState :=
  match kong.kpassport with
  | some k =>
    match is_admin k s with
    | (Except.ok admin, s') =>
      if admin then
        ((Response.json helloWorldBody).with_status_code 200, s')
      else
        (ErrorResponse.unauthorized, s')
    | (Except.error _, s') => (ErrorResponse.internal, s')
  | none => (ErrorResponse.unauthorized, s)

/-- The success response of the protected route. -/
def helloWorldResponse : Response :=
  (Response.json helloWorldBody).with_status_code 200

/-- The PrivateKontroller instance registered by main. -/
def privateKontroller : PrivateKontroller :=
  { address := "/private", method := Method.Get }

/-- The (method, address) Routes of the five Kontrollers registered with
kroute by main, in registration order: CreateAccountKontroller,
LoginKontroller, CreateBlogPostKontroller, PrivateKontroller,
SubscribeNewsletterKontroller. -/
def registeredRoutes : List (Method × String) :=
  [(Method.Post, "/accounts"),
   (Method.Post, "/login"),
   (Method.Post, "/blog"),
   (Method.Get, "/private"),
   (Method.Post, "/newsletter")]

/-- Downgrading an identity in the store: the administrator flag of every
account row with the given username is cleared; nothing else changes. -/
def downgradeAccounts : List (String × Bool) → String → List (String × Bool)
  | [], _ => []
  | (n, f) :: rest, u => (n, if n = u then false else f) :: downgradeAccounts rest u

theorem lookupAccount_downgrade (l : List (String × Bool)) (u : String) :
    lookupAccount (downgradeAccounts l u) u =
      Option.map (fun _ => false) (lookupAccount l u) := by
  induction l with
  | nil => rfl
  | cons p rest ih =>
    obtain ⟨n, f⟩ := p
    by_cases h : n = u <;> simp [downgradeAccounts, lookupAccount, h, ih]

theorem is_admin_fst_ok_inv (k : Kpassport) (s : StoreState) (b : Bool)
    (h : (is_admin k s).1 = Except.ok b) :
    s.db.reachable = true ∧ lookupAccount s.db.accounts k.username = some b := by
  unfold is_admin at h
  cases hr : s.db.reachable with
  | false => simp [hr] at h
  | true =>
    cases hl : lookupAccount s.db.accounts k.username with
    | none => simp [hr, hl] at h
    | some flag =>
      simp [hr, hl] at h
      exact ⟨rfl, by exact congrArg some h⟩

theorem is_admin_snd_db (k : Kpassport) (s : StoreState) :
    ((is_admin k s).2).db = s.db := by
  unfold is_admin
  cases hr : s.db.reachable with
  | false => simp [hr]
  | true =>
    cases hl : lookupAccount s.db.accounts k.username with
    | none => simp [hr, hl]
    | some flag => simp [hr, hl]

theorem is_admin_fst_congr_db (k : Kpassport) (s s' : StoreState)
    (h : s.db = s'.db) : (is_admin k s).1 = (is_admin k s').1 := by
  unfold is_admin
  rw [h]
  cases hr : s'.db.reachable with
  | false => simp [hr]
  | true =>
    cases hl : lookupAccount s'.db.accounts k.username with
    | none => simp [hr, hl]
    | some flag => simp [hr, hl]

theorem kontrol_none_eq (p : PrivateKontroller) (kong : Kong) (s : StoreState)
    (h : kong.kpassport = none) :
    p.kontrol kong s = (ErrorResponse.unauthorized, s) := by
  simp [PrivateKontroller.kontrol, h]

theorem kontrol_some_eq (p : PrivateKontroller) (kong : Kong) (s : StoreState)
    (k : Kpassport) (hk : kong.kpassport = some k) :
    p.kontrol kong s =
      ((match (is_admin k s).1 with
        | Except.ok true => helloWorldResponse
        | Except.ok false => ErrorResponse.unauthorized
        | Except.error _ => ErrorResponse.internal), (is_admin k s).2) := by
  rcases hik : is_admin k s with ⟨res, s'⟩
  cases res with
  | ok b =>
    cases b <;>
      simp [PrivateKontroller.kontrol, hk, hik, helloWorldResponse]
  | error e => simp [PrivateKontroller.kontrol, hk, hik]

/-- C1: a request whose context carries no SessionContext receives the
Unauthorized error response from the protected-route kontroller,
regardless of the identity-store state. -/
theorem kontrol_no_session_unauthorized (p : PrivateKontroller) (kong : Kong)
    (s : StoreState) (h : kong.kpassport = none) :
    (p.kontrol kong s).1 = ErrorResponse.unauthorized := by
  simp [PrivateKontroller.kontrol, h]

/-- Witness for C1: the registered kontroller, a request with no
kpassport, and a store holding an admin account. -/
theorem kontrol_no_session_unauthorized_witness :
    (privateKontroller.kontrol { kpassport := none }
      { db := { reachable := true, accounts := [("admin", true)] },
        queries := 0 }).1 = ErrorResponse.unauthorized :=
  kontrol_no_session_unauthorized privateKontroller { kpassport := none }
    { db := { reachable := true, accounts := [("admin", true)] }, queries := 0 }
    rfl

/-- C2: a request whose SessionContext resolves via is_admin to an admin
identity receives the success response: status code 200 with the JSON
body message Hello World. -/
theorem kontrol_admin_success (p : PrivateKontroller) (kong : Kong)
    (s : StoreState) (k : Kpassport) (hk : kong.kpassport = some k)
    (ha : (is_admin k s).1 = Except.ok true) :
    (p.kontrol kong s).1 = helloWorldResponse ∧
    (p.kontrol kong s).1.status_code = 200 ∧
    (p.kontrol kong s).1.body = helloWorldBody := by
  have h1 : (p.kontrol kong s).1 = helloWorldResponse := by
    rw [kontrol_some_eq p kong s k hk]
    simp [ha]
  exact ⟨h1, by rw [h1]; rfl, by rw [h1]; rfl⟩

/-- Witness for C2: the registered kontroller, a session for username
admin, and a store in which admin is flagged administrator. -/
theorem kontrol_admin_success_witness :
    (privateKontroller.kontrol { kpassport := some { username := "admin" } }
        { db := { reachable := true, accounts := [("admin", true)] },
          queries := 0 }).1 = helloWorldResponse ∧
    (privateKontroller.kontrol { kpassport := some { username := "admin" } }
        { db := { reachable := true, accounts := [("admin", true)] },
          queries := 0 }).1.status_code = 200 ∧
    (privateKontroller.kontrol { kpassport := some { username := "admin" } }
        { db := { reachable := true, accounts := [("admin", true)] },
          queries := 0 }).1.body = helloWorldBody :=
  kontrol_admin_success privateKontroller
    { kpassport := some { username := "admin" } }
    { db := { reachable := true, accounts := [("admin", true)] }, queries := 0 }
    { username := "admin" } rfl rfl

/-- C3: a request whose SessionContext resolves successfully to a
non-admin identity receives the Unauthorized error response, never the
success response and no status other than 401. -/
theorem kontrol_non_admin_unauthorized (p : PrivateKontroller) (kong : Kong)
    (s : StoreState) (k : Kpassport) (hk : kong.kpassport = some k)
    (ha : (is_admin k s).1 = Except.ok false) :
    (p.kontrol kong s).1 = ErrorResponse.unauthorized ∧
    (p.kontrol kong s).1 ≠ helloWorldResponse ∧
    (p.kontrol kong s).1.status_code = 401 := by
  have h1 : (p.kontrol kong s).1 = ErrorResponse.unauthorized := by
    rw [kontrol_some_eq p kong s k hk]
    simp [ha]
  exact ⟨h1, by rw [h1]; decide, by rw [h1]; rfl⟩

/-- Witness for C3: a session for username bob, with bob present in the
store but not flagged administrator. -/
theorem kontrol_non_admin_unauthorized_witness :
    (privateKontroller.kontrol { kpassport := some { username := "bob" } }
        { db := { reachable := true, accounts := [("bob", false)] },
          queries := 0 }).1 = ErrorResponse.unauthorized ∧
    (privateKontroller.kontrol { kpassport := some { username := "bob" } }
        { db := { reachable := true, accounts := [("bob", false)] },
          queries := 0 }).1 ≠ helloWorldResponse ∧
    (privateKontroller.kontrol { kpassport := some { username := "bob" } }
        { db := { reachable := true, accounts := [("bob", false)] },
          queries := 0 }).1.status_code = 401 :=
  kontrol_non_admin_unauthorized privateKontroller
    { kpassport := some { username := "bob" } }
    { db := { reachable := true, accounts := [("bob", false)] }, queries := 0 }
    { username := "bob" } rfl rfl

/-- C4: a request whose SessionContext is present but whose resolution
fails receives the Internal error response, which is neither the
Unauthorized response nor the BadRequest domain error. -/
theorem kontrol_lookup_failure_internal (p : PrivateKontroller) (kong : Kong)
    (s : StoreState) (k : Kpassport) (e : LookupError)
    (hk : kong.kpassport = some k)
    (ha : (is_admin k s).1 = Except.error e) :
    (p.kontrol kong s).1 = ErrorResponse.internal ∧
    ErrorResponse.internal ≠ ErrorResponse.unauthorized ∧
    ErrorResponse.internal ≠ ErrorResponse.bad_request := by
  have h1 : (p.kontrol kong s).1 = ErrorResponse.internal := by
    rw [kontrol_some_eq p kong s k hk]
    simp [ha]
  exact ⟨h1, by decide, by decide⟩

/-- Witness for C4: a session presented against an unreachable store. -/
theorem kontrol_lookup_failure_internal_witness :
    (privateKontroller.kontrol { kpassport := some { username := "admin" } }
        { db := { reachable := false, accounts := [] },
          queries := 0 }).1 = ErrorResponse.internal ∧
    ErrorResponse.internal ≠ ErrorResponse.unauthorized ∧
    ErrorResponse.internal ≠ ErrorResponse.bad_request :=
  kontrol_lookup_failure_internal privateKontroller
    { kpassport := some { username := "admin" } }
    { db := { reachable := false, accounts := [] }, queries := 0 }
    { username := "admin" } LookupError.storeUnreachable rfl rfl

/-- C5: kontrol is total and yields exactly one response, which is the
single success response or exactly one ErrorResponse variant; the three
possible outcomes are pairwise distinct. -/
theorem kontrol_exactly_one_outcome (p : PrivateKontroller) (kong : Kong)
    (s : StoreState) :
    ((p.kontrol kong s).1 = helloWorldResponse ∨
     (p.kontrol kong s).1 = ErrorResponse.unauthorized ∨
     (p.kontrol kong s).1 = ErrorResponse.internal) ∧
    helloWorldResponse ≠ ErrorResponse.unauthorized ∧
    helloWorldResponse ≠ ErrorResponse.internal ∧
    ErrorResponse.unauthorized ≠ ErrorResponse.internal := by
  refine ⟨?_, by decide, by decide, by decide⟩
  rcases hkp : kong.kpassport with _ | k
  · rw [kontrol_none_eq p kong s hkp]
    simp
  · rw [kontrol_some_eq p kong s k hkp]
    rcases hres : (is_admin k s).1 with e | b
    · simp
    · cases b <;> simp

/-- C6: an unauthenticated request and a request authenticated as a
non-admin identity receive identical responses: the same Unauthorized
error response, so the two cases are indistinguishable to the caller. -/
theorem kontrol_unauth_indistinguishable (p1 p2 : PrivateKontroller)
    (kong1 kong2 : Kong) (s1 s2 : StoreState) (k : Kpassport)
    (h1 : kong1.kpassport = none) (h2 : kong2.kpassport = some k)
    (hres : (is_admin k s2).1 = Except.ok false) :
    (p1.kontrol kong1 s1).1 = (p2.kontrol kong2 s2).1 ∧
    (p1.kontrol kong1 s1).1 = ErrorResponse.unauthorized := by
  have a1 : (p1.kontrol kong1 s1).1 = ErrorResponse.unauthorized := by
    rw [kontrol_none_eq p1 kong1 s1 h1]
  have a2 : (p2.kontrol kong2 s2).1 = ErrorResponse.unauthorized := by
    rw [kontrol_some_eq p2 kong2 s2 k h2]
    simp [hres]
  exact ⟨a1.trans a2.symm, a1⟩

/-- Witness for C6: no cookie versus a session for a non-admin bob. -/
theorem kontrol_unauth_indistinguishable_witness :
    (privateKontroller.kontrol { kpassport := none }
        { db := { reachable := true, accounts := [("bob", false)] },
          queries := 0 }).1 =
      (privateKontroller.kontrol { kpassport := some { username := "bob" } }
        { db := { reachable := true, accounts := [("bob", false)] },
          queries := 0 }).1 ∧
    (privateKontroller.kontrol { kpassport := none }
        { db := { reachable := true, accounts := [("bob", false)] },
          queries := 0 }).1 = ErrorResponse.unauthorized :=
  kontrol_unauth_indistinguishable privateKontroller privateKontroller
    { kpassport := none } { kpassport := some { username := "bob" } }
    { db := { reachable := true, accounts := [("bob", false)] }, queries := 0 }
    { db := { reachable := true, accounts := [("bob", false)] }, queries := 0 }
    { username := "bob" } rfl rfl rfl

/-- C7: the authorization check mutates no state: the accounts database
component of the state is unchanged by every invocation of kontrol, and
repeating the same request with an unchanged privileged session yields
two independent successes. -/
theorem kontrol_no_state_mutation (p : PrivateKontroller) (kong : Kong)
    (s : StoreState) (k : Kpassport) (hk : kong.kpassport = some k)
    (ha : (is_admin k s).1 = Except.ok true) :
    (∀ kong0 s0, ((p.kontrol kong0 s0).2).db = s0.db) ∧
    (p.kontrol kong s).1 = helloWorldResponse ∧
    (p.kontrol kong ((p.kontrol kong s).2)).1 = helloWorldResponse := by
  have hdb : ∀ (kong0 : Kong) (s0 : StoreState),
      ((p.kontrol kong0 s0).2).db = s0.db := by
    intro kong0 s0
    rcases hkp : kong0.kpassport with _ | k0
    · rw [kontrol_none_eq p kong0 s0 hkp]
    · rw [kontrol_some_eq p kong0 s0 k0 hkp]
      exact is_admin_snd_db k0 s0
  have hs1 : (p.kontrol kong s).1 = helloWorldResponse := by
    rw [kontrol_some_eq p kong s k hk]
    simp [ha]
  have ha2 : (is_admin k ((p.kontrol kong s).2)).1 = Except.ok true := by
    rw [is_admin_fst_congr_db k ((p.kontrol kong s).2) s (hdb kong s)]
    exact ha
  have hs2 : (p.kontrol kong ((p.kontrol kong s).2)).1 = helloWorldResponse := by
    rw [kontrol_some_eq p kong ((p.kontrol kong s).2) k hk]
    simp [ha2]
  exact ⟨hdb, hs1, hs2⟩

/-- Witness for C7: the registered kontroller with an admin session and a
store in which admin is flagged administrator. -/
theorem kontrol_no_state_mutation_witness :
    (∀ kong0 s0, ((privateKontroller.kontrol kong0 s0).2).db = s0.db) ∧
    (privateKontroller.kontrol { kpassport := some { username := "admin" } }
        { db := { reachable := true, accounts := [("admin", true)] },
          queries := 0 }).1 = helloWorldResponse ∧
    (privateKontroller.kontrol { kpassport := some { username := "admin" } }
        ((privateKontroller.kontrol { kpassport := some { username := "admin" } }
          { db := { reachable := true, accounts := [("admin", true)] },
            queries := 0 }).2)).1 = helloWorldResponse :=
  kontrol_no_state_mutation privateKontroller
    { kpassport := some { username := "admin" } }
    { db := { reachable := true, accounts := [("admin", true)] }, queries := 0 }
    { username := "admin" } rfl rfl

/-- C8: no cached decision: if the identity behind a privileged session
is downgraded in the store between two invocations with the same session,
the first invocation succeeds and the second returns Unauthorized. -/
theorem kontrol_revocation_takes_effect (p : PrivateKontroller) (kong : Kong)
    (s1 s2 : StoreState) (k : Kpassport)
    (hk : kong.kpassport = some k)
    (ha : (is_admin k s1).1 = Except.ok true)
    (hdg : s2.db = { reachable := s1.db.reachable,
                     accounts := downgradeAccounts s1.db.accounts k.username }) :
    (p.kontrol kong s1).1 = helloWorldResponse ∧
    (p.kontrol kong s2).1 = ErrorResponse.unauthorized := by
  obtain ⟨hr, hl⟩ := is_admin_fst_ok_inv k s1 true ha
  have ha2 : (is_admin k s2).1 = Except.ok false := by
    simp [is_admin, hdg, hr, lookupAccount_downgrade, hl]
  have hs1 : (p.kontrol kong s1).1 = helloWorldResponse := by
    rw [kontrol_some_eq p kong s1 k hk]
    simp [ha]
  have hs2 : (p.kontrol kong s2).1 = ErrorResponse.unauthorized := by
    rw [kontrol_some_eq p kong s2 k hk]
    simp [ha2]
  exact ⟨hs1, hs2⟩

/-- Witness for C8: admin is flagged administrator in the first store
state and downgraded in the second. -/
theorem kontrol_revocation_takes_effect_witness :
    (privateKontroller.kontrol { kpassport := some { username := "admin" } }
        { db := { reachable := true, accounts := [("admin", true)] },
          queries := 0 }).1 = helloWorldResponse ∧
    (privateKontroller.kontrol { kpassport := some { username := "admin" } }
        { db := { reachable := true, accounts := [("admin", false)] },
          queries := 1 }).1 = ErrorResponse.unauthorized :=
  kontrol_revocation_takes_effect privateKontroller
    { kpassport := some { username := "admin" } }
    { db := { reachable := true, accounts := [("admin", true)] }, queries := 0 }
    { db := { reachable := true, accounts := [("admin", false)] }, queries := 1 }
    { username := "admin" } rfl rfl rfl

/-- C9: the five Routes registered with kroute by main are pairwise
distinct: no two registered Kontrollers share the same (method, path). -/
theorem registered_routes_distinct : registeredRoutes.Nodup := by decide

/-- C10: with no SessionContext present, kontrol returns the Unauthorized
response without touching the identity store: the whole store state,
query counter included, is returned unchanged. -/
theorem kontrol_no_session_no_store_query (p : PrivateKontroller)
    (kong : Kong) (s : StoreState) (h : kong.kpassport = none) :
    p.kontrol kong s = (ErrorResponse.unauthorized, s) ∧
    ((p.kontrol kong s).2).queries = s.queries :=
  ⟨kontrol_none_eq p kong s h, by rw [kontrol_none_eq p kong s h]⟩

/-- Witness for C10: a request with no kpassport against a store holding
an admin account; the state comes back whole, zero queries made. -/
theorem kontrol_no_session_no_store_query_witness :
    privateKontroller.kontrol { kpassport := none }
        { db := { reachable := true, accounts := [("admin", true)] },
          queries := 0 } =
      (ErrorResponse.unauthorized,
       { db := { reachable := true, accounts := [("admin", true)] },
         queries := 0 }) ∧
    ((privateKontroller.kontrol { kpassport := none }
        { db := { reachable := true, accounts := [("admin", true)] },
          queries := 0 }).2).queries = 0 :=
  kontrol_no_session_no_store_query privateKontroller { kpassport := none }
    { db := { reachable := true, accounts := [("admin", true)] }, queries := 0 }
    rfl

end Ktest
